import Mathlib

set_option linter.unusedVariables false

/-!
Verification of `samples/cloud_anchor_c/app/src/main/cpp/util.h` from the
arcore-android-sdk repository.

The excerpt under verification is a C++ header: the `ScopedArPose` RAII
wrapper and the `CHECK` macro are defined inline in the header; every other
function is declared there (with a documenting comment) and implemented in a
translation unit outside the excerpt.  Functions whose bodies are absent are
modelled from the specification and the header comments; each such
definition carries a doc comment starting with `Modelled from the spec:`.

The embedding is shallow: opaque SDK handles become natural numbers, the
SDK-side pose store and the UI become explicit state records, and fatal
`CHECK` failures become an explicit `CallOutcome` type.
-/

namespace cloud_anchor
namespace util

/-- Opaque `ArSession*` handle from `arcore_c_api.h`. -/
structure ArSession where
  sid : Nat
deriving DecidableEq, Repr

/-- Handles to SDK-allocated `ArPose` objects. -/
abbrev PoseHandle := Nat

/-- Raw pose payload: quaternion `(qx, qy, qz, qw)` and translation
`(tx, ty, tz)`, following the 7-float raw-pose layout of the AR SDK.
Components are rationals in the model. -/
structure RawPose where
  qx : ℚ
  qy : ℚ
  qz : ℚ
  qw : ℚ
  tx : ℚ
  ty : ℚ
  tz : ℚ
deriving DecidableEq, Repr

/-- The SDK default pose: identity rotation, zero translation. -/
def identityRawPose : RawPose :=
  { qx := 0, qy := 0, qz := 0, qw := 1, tx := 0, ty := 0, tz := 0 }

/-- Observable SDK-side events: pose allocation and pose release. -/
inductive ArEvent where
  | poseCreate (h : PoseHandle)
  | poseDestroy (h : PoseHandle)
deriving DecidableEq, Repr

/-- SDK-side world state: the store of live pose objects, a fresh-handle
counter, and the trace of allocation/release events. -/
structure ArWorld where
  poses : List (PoseHandle × RawPose)
  nextHandle : PoseHandle
  events : List ArEvent
deriving DecidableEq, Repr

/-- Modelled from the spec: `ArPose_create` is declared in `arcore_c_api.h`,
which is outside this excerpt.  It allocates a fresh pose object; per the SDK
contract a null raw-pose argument (here `none`) initializes the object to the
identity pose. -/
def ArPose_create (session : ArSession) (raw : Option RawPose) (w : ArWorld) :
    ArWorld × PoseHandle :=
  let h := w.nextHandle
  ({ poses := (h, raw.getD identityRawPose) :: w.poses
     nextHandle := w.nextHandle + 1
     events := w.events ++ [ArEvent.poseCreate h] }, h)

/-- Modelled from the spec: `ArPose_destroy` is declared in `arcore_c_api.h`,
which is outside this excerpt.  It releases the pose object named by the
handle. -/
def ArPose_destroy (h : PoseHandle) (w : ArWorld) : ArWorld :=
  { poses := w.poses.filter (fun p => p.1 ≠ h)
    nextHandle := w.nextHandle
    events := w.events ++ [ArEvent.poseDestroy h] }

/-- The `ScopedArPose` wrapper from `util.h`: its only data member is the
owned pose handle `pose_`. -/
structure ScopedArPose where
  pose_ : PoseHandle
deriving DecidableEq, Repr

/-- Constructor of `ScopedArPose` (util.h line 61): calls
`ArPose_create(session, nullptr, &pose_)`, i.e. passes a null raw pose. -/
def ScopedArPose.construct (session : ArSession) (w : ArWorld) :
    ArWorld × ScopedArPose :=
  let r := ArPose_create session none w
  (r.1, { pose_ := r.2 })

/-- Destructor of `ScopedArPose` (util.h line 64): calls
`ArPose_destroy(pose_)`. -/
def ScopedArPose.destruct (sp : ScopedArPose) (w : ArWorld) : ArWorld :=
  ArPose_destroy sp.pose_ w

/-- Accessor `GetArPose` (util.h line 65): returns the stored handle. -/
def ScopedArPose.GetArPose (sp : ScopedArPose) : PoseHandle :=
  sp.pose_

/-- The special member functions `ScopedArPose(const ScopedArPose&)` and
`operator=(const ScopedArPose&)` are deleted in util.h (lines 67-68). -/
def ScopedArPose.copyConstructorDeleted : Bool := true

/-- See `ScopedArPose.copyConstructorDeleted`. -/
def ScopedArPose.copyAssignmentDeleted : Bool := true

/-- C++ scope semantics for a local `ScopedArPose`: the constructor runs on
entry, the body runs (emitting whatever SDK events it performs), and the
destructor runs on every path out of the scope. -/
def withScopedArPose (session : ArSession) (body : ScopedArPose → List ArEvent)
    (w : ArWorld) : ArWorld :=
  let r := ScopedArPose.construct session w
  let w1 := { r.1 with events := r.1.events ++ body r.2 }
  ScopedArPose.destruct r.2 w1

/-- The SDK event trace a `ScopedArPose` scope appends: one `poseCreate` on
entry, the body events, one `poseDestroy` on exit. -/
def scopeTrace (body : ScopedArPose → List ArEvent) (h : PoseHandle) :
    List ArEvent :=
  ArEvent.poseCreate h :: (body { pose_ := h } ++ [ArEvent.poseDestroy h])

/-- Outcome of a call that may hit the fatal `CHECK` macro: either a normal
return value, or process termination after logging the failed condition.
There is no third constructor: the type offers no error-code channel. -/
inductive CallOutcome (α : Type) where
  | ok (value : α)
  | aborted (loggedMessage : String)
deriving DecidableEq, Repr

/-- Sequencing in the presence of fatal checks: an abort propagates. -/
def CallOutcome.bind {α β : Type} :
    CallOutcome α → (α → CallOutcome β) → CallOutcome β
  | CallOutcome.ok a, f => f a
  | CallOutcome.aborted m, _ => CallOutcome.aborted m

/-- The message the `CHECK` macro logs before aborting (util.h line 47):
the failure site and the stringified condition. -/
def checkFailureMessage (file : String) (line : Nat) (conditionText : String) :
    String :=
  "*** CHECK FAILED at " ++ file ++ ":" ++ toString line ++ ": " ++ conditionText

/-- The `CHECK` macro (util.h lines 44-50): if the condition is false, log the
failure and abort; otherwise do nothing. -/
def CHECK (condition : Bool) (file : String) (line : Nat)
    (conditionText : String) : CallOutcome Unit :=
  if condition then CallOutcome.ok ()
  else CallOutcome.aborted (checkFailureMessage file line conditionText)

/-- Modelled from the spec: the body of `CheckGlError` lives in util.cc,
outside this excerpt.  Per the header comment "Check GL error, and abort if
an error is encountered", it fatally checks via `CHECK` that no GL error
(`glGetError` result, 0 meaning no error) is pending after the named
operation. -/
def CheckGlError (operation : String) (glError : Nat) : CallOutcome Unit :=
  CHECK (glError == 0) "util.cc" 0 ("GL error after " ++ operation)

/-- A decoded PNG image as the platform image decoder delivers it. -/
structure PngImage where
  width : Nat
  height : Nat
deriving DecidableEq, Repr

/-- One parsed OBJ vertex: position, normal, texture coordinate. -/
structure ObjVertex where
  px : ℚ
  py : ℚ
  pz : ℚ
  nx : ℚ
  ny : ℚ
  nz : ℚ
  u : ℚ
  v : ℚ
deriving DecidableEq, Repr

/-- A parsed OBJ mesh: aligned vertex records and triangle index triples. -/
structure ObjData where
  verts : List ObjVertex
  tris : List (Nat × Nat × Nat)
deriving DecidableEq, Repr

/-- The platform asset manager together with its decoders, abstracted: a
named asset maps to its decoded content exactly when it exists and parses,
and to `none` when it is missing or malformed.  The decoders themselves
(text read, PNG decode, OBJ parse) are platform and third-party code outside
this excerpt. -/
structure AssetPlatform where
  textAsset : String → Option String
  pngAsset : String → Option PngImage
  objAsset : String → Option ObjData

/-- Modelled from the spec: body in util.cc, outside this excerpt.  Reads the
named asset into the output string and returns true exactly when the asset
exists and reads correctly; per the spec there are no partial-content
semantics, so on failure the caller's string is returned untouched. -/
def LoadTextFileFromAssetManager (mgr : AssetPlatform) (file_name : String)
    (out_file_text_string : String) : Bool × String :=
  match mgr.textAsset file_name with
  | some s => (true, s)
  | none => (false, out_file_text_string)

/-- The calling thread and the thread owning the GL context. -/
structure ThreadCtx where
  current : Nat
  glOwner : Nat
deriving DecidableEq, Repr

/-- GL texture unit state: which image is uploaded to which bind target. -/
structure GlTexState where
  bound : List (Nat × PngImage)
deriving DecidableEq, Repr

/-- Modelled from the spec: body in util.cc, outside this excerpt.  Per the
header comment it "must be called from the renderer thread" (the thread that
owns the GL context): a call from any other thread is undefined, modelled as
`none`.  On the owning thread it decodes the named image asset and uploads
it to the given bind target, returning true; a missing or undecodable asset
yields false and leaves the texture state unchanged. -/
def LoadPngFromAssetManager (tc : ThreadCtx) (mgr : AssetPlatform)
    (target : Nat) (path : String) (tex : GlTexState) :
    Option (Bool × GlTexState) :=
  if tc.current = tc.glOwner then
    match mgr.pngAsset path with
    | some img => some (true, { bound := (target, img) :: tex.bound })
    | none => some (false, tex)
  else none

/-- Flat position array of a parsed OBJ mesh: three floats per vertex. -/
def ObjData.flatVertices (d : ObjData) : List ℚ :=
  d.verts.flatMap (fun t => [t.px, t.py, t.pz])

/-- Flat normal array: three floats per vertex. -/
def ObjData.flatNormals (d : ObjData) : List ℚ :=
  d.verts.flatMap (fun t => [t.nx, t.ny, t.nz])

/-- Flat texture-coordinate array: two floats per vertex. -/
def ObjData.flatUV (d : ObjData) : List ℚ :=
  d.verts.flatMap (fun t => [t.u, t.v])

/-- Flat triangle index array: three indices per triangle. -/
def ObjData.flatIndices (d : ObjData) : List Nat :=
  d.tris.flatMap (fun t => [t.1, t.2.1, t.2.2])

/-- Modelled from the spec: body in util.cc, outside this excerpt.  Parses
the named OBJ asset into flat vertex/normal/UV/index arrays and returns
true; a missing or malformed asset yields false with the caller's buffers
untouched. -/
def LoadObjFile (mgr : AssetPlatform) (file_name : String)
    (out_vertices out_normals out_uv : List ℚ) (out_indices : List Nat) :
    Bool × List ℚ × List ℚ × List ℚ × List Nat :=
  match mgr.objAsset file_name with
  | some d =>
      (true, d.flatVertices, d.flatNormals, d.flatUV, d.flatIndices)
  | none => (false, out_vertices, out_normals, out_uv, out_indices)

/-- The `HostResolveVisibilityEnum` from util.h line 135. -/
inductive HostResolveVisibilityEnum where
  | ALL
  | ONLY_HOST
  | ONLY_RESOLVE
deriving DecidableEq, Repr

/-- UI and backend state the notification helpers touch. -/
structure UIState where
  lowerSnackbarMessage : String
  resolveDialogShown : Bool
  roomCodeLabel : Int
  hostResolveVisibility : HostResolveVisibilityEnum
  firebaseHostedAnchor : Option String
deriving DecidableEq, Repr

/-- Modelled from the spec: fire-and-forget UI call, body outside this
excerpt; shows the resolve room code dialog and returns nothing. -/
def ShowResolveDialog (ui : UIState) : UIState × Unit :=
  ({ ui with resolveDialogShown := true }, ())

/-- Modelled from the spec: fire-and-forget UI call, body outside this
excerpt; displays the message on the lower snackbar and returns nothing. -/
def DisplayMessageOnLowerSnackbar (message : String) (ui : UIState) :
    UIState × Unit :=
  ({ ui with lowerSnackbarMessage := message }, ())

/-- Modelled from the spec: body outside this excerpt.  Per the header
comment (util.h lines 126-128): if `getNewRoomCode` is true the room-code
label is updated to a value dynamically fetched from Firebase (the fetch is
an input here), otherwise to `optional_new_room_code`.  Returns nothing. -/
def UpdateFirebaseRoomCode (firebaseFetchedRoomCode : Int)
    (getNewRoomCode : Bool) (optional_new_room_code : Int) (ui : UIState) :
    UIState × Unit :=
  ({ ui with roomCodeLabel :=
      if getNewRoomCode then firebaseFetchedRoomCode
      else optional_new_room_code }, ())

/-- Modelled from the spec: body outside this excerpt.  Per the header
comment it "updates firebase with a hosted anchor, if possible": whether the
backend update is possible is an input, and either way the caller gets
nothing back — a backend failure is silent. -/
def MaybeUpdateFirebase (canUpdate : Bool) (message : String) (ui : UIState) :
    UIState × Unit :=
  (if canUpdate then { ui with firebaseHostedAnchor := some message } else ui,
   ())

/-- Modelled from the spec: fire-and-forget UI call, body outside this
excerpt; sets the host/resolve button visibility and returns nothing. -/
def SetHostAndResolveButtonVisibility (visiblity : HostResolveVisibilityEnum)
    (ui : UIState) : UIState × Unit :=
  ({ ui with hostResolveVisibility := visiblity }, ())

/-- The operations util.h declares. -/
inductive ModuleOp where
  | checkGlError
  | createProgram
  | loadTextFileFromAssetManager
  | loadPngFromAssetManager
  | loadObjFile
  | showResolveDialog
  | displayMessageOnLowerSnackbar
  | updateFirebaseRoomCode
  | maybeUpdateFirebase
  | setHostAndResolveButtonVisibility
  | log4x4Matrix
  | getTransformMatrixFromAnchor
  | calculateDistanceToPlane
deriving DecidableEq, Repr

/-- The threading constraint each util.h declaration documents: only the
comment on `LoadPngFromAssetManager` (util.h lines 97-98) states one — the
call must come from the renderer thread, which owns the GL context; no other
declaration in the header carries a threading requirement. -/
def requiresGlThread : ModuleOp → Bool
  | ModuleOp.loadPngFromAssetManager => true
  | _ => false

/-- The GL shader pipeline as the platform exposes it: whether a given
source compiles, whether the program links, and the id GL hands out. -/
structure GlShaderEnv where
  compiles : String → Bool
  links : Bool
  freshProgram : Nat

/-- Modelled from the spec: body in util.cc, outside this excerpt.  Reads
the two shader source files via the asset-loading collaborator
(`LoadTextFileFromAssetManager`), compiles each and links; any platform
graphics error (compile or link failure) fails a fatal `CHECK`.  On success
the new program id is returned; a missing source file is an asset-loading
failure, not a graphics error, and yields program id 0. -/
def CreateProgram (mgr : AssetPlatform) (gl : GlShaderEnv)
    (vertex_shader_file_name fragment_shader_file_name : String) :
    CallOutcome Nat :=
  let vr := LoadTextFileFromAssetManager mgr vertex_shader_file_name ""
  let fr := LoadTextFileFromAssetManager mgr fragment_shader_file_name ""
  if vr.1 && fr.1 then
    CallOutcome.bind
      (CHECK (gl.compiles vr.2) "util.cc" 0 "vertex shader compile status")
      (fun _ => CallOutcome.bind
        (CHECK (gl.compiles fr.2) "util.cc" 0 "fragment shader compile status")
        (fun _ => CallOutcome.bind
          (CHECK gl.links "util.cc" 0 "program link status")
          (fun _ => CallOutcome.ok gl.freshProgram)))
  else CallOutcome.ok 0

/-- Cartesian 3-vector over the rationals. -/
structure Vec3 where
  x : ℚ
  y : ℚ
  z : ℚ
deriving DecidableEq, Repr

/-- Componentwise difference. -/
def Vec3.sub (a b : Vec3) : Vec3 :=
  { x := a.x - b.x, y := a.y - b.y, z := a.z - b.z }

/-- Euclidean inner product. -/
def Vec3.dot (a b : Vec3) : ℚ :=
  a.x * b.x + a.y * b.y + a.z * b.z

/-- Scalar multiple. -/
def Vec3.smul (c : ℚ) (a : Vec3) : Vec3 :=
  { x := c * a.x, y := c * a.y, z := c * a.z }

/-- The translation component of a raw pose. -/
def RawPose.position (p : RawPose) : Vec3 :=
  { x := p.tx, y := p.ty, z := p.tz }

/-- The y axis of a raw pose: the image of (0,1,0) under the pose's
(unit-quaternion) rotation, i.e. the second column of its rotation matrix. -/
def RawPose.yAxis (p : RawPose) : Vec3 :=
  { x := 2 * (p.qx * p.qy - p.qw * p.qz)
    y := 1 - 2 * (p.qx * p.qx + p.qz * p.qz)
    z := 2 * (p.qy * p.qz + p.qw * p.qx) }

/-- The x axis of a raw pose: first column of its rotation matrix. -/
def RawPose.xAxis (p : RawPose) : Vec3 :=
  { x := 1 - 2 * (p.qy * p.qy + p.qz * p.qz)
    y := 2 * (p.qx * p.qy + p.qw * p.qz)
    z := 2 * (p.qx * p.qz - p.qw * p.qy) }

/-- The z axis of a raw pose: third column of its rotation matrix. -/
def RawPose.zAxis (p : RawPose) : Vec3 :=
  { x := 2 * (p.qx * p.qz + p.qw * p.qy)
    y := 2 * (p.qy * p.qz - p.qw * p.qx)
    z := 1 - 2 * (p.qx * p.qx + p.qy * p.qy) }

/-- The pose's 4x4 homogeneous transform in column-major order, as
`ArPose_getMatrix` fills a `glm::mat4`. -/
def poseMatrix (p : RawPose) : List ℚ :=
  [p.xAxis.x, p.xAxis.y, p.xAxis.z, 0,
   p.yAxis.x, p.yAxis.y, p.yAxis.z, 0,
   p.zAxis.x, p.zAxis.y, p.zAxis.z, 0,
   p.tx, p.ty, p.tz, 1]

/-- Opaque `ArAnchor*` handle: the anchor's pose as the SDK reports it. -/
structure ArAnchor where
  anchorPose : RawPose
deriving DecidableEq, Repr

/-- Application-visible world beyond the SDK pose store: the log stream. -/
structure AppWorld where
  ar : ArWorld
  logLines : List String
deriving DecidableEq, Repr

/-- Modelled from the spec: body in util.cc, outside this excerpt.  A pure
function over SDK pose data: computes the anchor's 4x4 transform into the
caller-supplied output matrix, with no side effect beyond the optional
logging call (which this helper does not make: the world is returned
unchanged). -/
def GetTransformMatrixFromAnchor (ar_session : ArSession)
    (ar_anchor : ArAnchor) (w : AppWorld) : AppWorld × List ℚ :=
  (w, poseMatrix ar_anchor.anchorPose)

/-- Modelled from the spec: body in util.cc, outside this excerpt.  Per the
header comment, the plane pose's y axis is parallel to the plane's normal;
the helper returns the component of the displacement from the plane pose's
position to the camera position along that axis — the normal distance to
the plane, as a signed quantity. -/
def CalculateDistanceToPlane (ar_session : ArSession) (plane_pose : RawPose)
    (camera_pose : RawPose) : ℚ :=
  Vec3.dot (Vec3.sub camera_pose.position plane_pose.position)
    plane_pose.yAxis

end util
end cloud_anchor

namespace cloud_anchor
namespace util

/-- Lagrange identity in three components: the Cauchy-Schwarz defect of the
inner product is a sum of squares. -/
theorem dot_sq_le_of_unit (v n : Vec3) (hn : Vec3.dot n n = 1) :
    (Vec3.dot v n) ^ 2 ≤ Vec3.dot v v := by
  have key : Vec3.dot v v * Vec3.dot n n - (Vec3.dot v n) ^ 2
      = (v.x * n.y - v.y * n.x) ^ 2 + (v.x * n.z - v.z * n.x) ^ 2
        + (v.y * n.z - v.z * n.y) ^ 2 := by
    simp only [Vec3.dot]
    ring
  nlinarith [sq_nonneg (v.x * n.y - v.y * n.x),
    sq_nonneg (v.x * n.z - v.z * n.x), sq_nonneg (v.y * n.z - v.z * n.y)]

/-- C1: a `ScopedArPose` scope acquires its pose handle exactly once at
construction via `ArPose_create`, releases it exactly once via
`ArPose_destroy` on exit from the scope, on every path (the destructor runs
unconditionally after the body), and the wrapper is non-copyable: both the
copy constructor and copy assignment are deleted.  The body owns no
create/destroy of the wrapper's handle (exclusive ownership). -/
theorem scopedArPose_raii
    (session : ArSession) (body : ScopedArPose → List ArEvent) (w : ArWorld)
    (hc : ArEvent.poseCreate w.nextHandle ∉ body { pose_ := w.nextHandle })
    (hd : ArEvent.poseDestroy w.nextHandle ∉ body { pose_ := w.nextHandle }) :
    (withScopedArPose session body w).events
        = w.events ++ scopeTrace body w.nextHandle
      ∧ (scopeTrace body w.nextHandle).count (ArEvent.poseCreate w.nextHandle)
        = 1
      ∧ (scopeTrace body w.nextHandle).count (ArEvent.poseDestroy w.nextHandle)
        = 1
      ∧ ScopedArPose.copyConstructorDeleted = true
      ∧ ScopedArPose.copyAssignmentDeleted = true := by
  refine ⟨?_, ?_, ?_, rfl, rfl⟩
  · simp [withScopedArPose, ScopedArPose.construct, ScopedArPose.destruct,
      ArPose_create, ArPose_destroy, scopeTrace]
  · simp [scopeTrace, List.count_cons, List.count_append,
      List.count_eq_zero_of_not_mem hc]
  · simp [scopeTrace, List.count_cons, List.count_append,
      List.count_eq_zero_of_not_mem hd]

/-- Witness for `scopedArPose_raii` at a concrete session, empty body and
empty initial world. -/
theorem scopedArPose_raii_witness :
    (withScopedArPose { sid := 0 } (fun _ => []) { poses := [], nextHandle := 0, events := [] }).events
        = ([] : List ArEvent) ++ scopeTrace (fun _ => []) 0
      ∧ (scopeTrace (fun _ => []) 0).count (ArEvent.poseCreate 0) = 1
      ∧ (scopeTrace (fun _ => []) 0).count (ArEvent.poseDestroy 0) = 1
      ∧ ScopedArPose.copyConstructorDeleted = true
      ∧ ScopedArPose.copyAssignmentDeleted = true :=
  scopedArPose_raii { sid := 0 } (fun _ => [])
    { poses := [], nextHandle := 0, events := [] }
    (by simp) (by simp)

/-- C10: the `ScopedArPose` constructor calls `ArPose_create` with a null
raw-pose argument, so the freshly created pose object holds the SDK default
(identity) pose, and `GetArPose` returns exactly the handle acquired at
construction; nothing in the class ever rebinds the stored handle. -/
theorem scopedArPose_construct_default
    (session : ArSession) (w : ArWorld) :
    ScopedArPose.construct session w
        = ((ArPose_create session none w).1,
           { pose_ := (ArPose_create session none w).2 })
      ∧ (ScopedArPose.construct session w).2.GetArPose = w.nextHandle
      ∧ (ScopedArPose.construct session w).1.poses.head?
        = some (w.nextHandle, identityRawPose)
      ∧ (∀ sp : ScopedArPose, sp.GetArPose = sp.pose_) := by
  refine ⟨rfl, rfl, ?_, fun _ => rfl⟩
  simp [ScopedArPose.construct, ArPose_create, Option.getD]

/-- Helper: flattening k components per record yields a list of k times the
record count. -/
theorem length_flatMap_const {α β : Type} (k : Nat) (f : α → List β)
    (l : List α) (hf : ∀ a, (f a).length = k) :
    (l.flatMap f).length = k * l.length := by
  induction l with
  | nil => simp
  | cons a tl ih => simp [hf, ih]; ring

/-- A concrete asset platform where every asset exists and parses. -/
def demoAssets : AssetPlatform :=
  { textAsset := fun _ => some "shader source"
    pngAsset := fun _ => some { width := 2, height := 2 }
    objAsset := fun _ => some
      { verts := [{ px := 0, py := 0, pz := 0, nx := 0, ny := 1, nz := 0,
                    u := 0, v := 0 }]
        tris := [(0, 0, 0)] } }

/-- A concrete asset platform with no assets at all. -/
def emptyAssets : AssetPlatform :=
  { textAsset := fun _ => none
    pngAsset := fun _ => none
    objAsset := fun _ => none }

/-- A concrete GL shader environment where nothing compiles or links. -/
def failingGl : GlShaderEnv :=
  { compiles := fun _ => false, links := false, freshProgram := 7 }

/-- C2: graphics-state checks and shader program creation are fatal on any
platform graphics error: `CHECK` aborts after logging the failed condition
when the condition is false and has no observable effect when it holds;
`CheckGlError` passes exactly when no GL error is pending and otherwise
aborts through `CHECK`; `CreateProgram` aborts on any compile or link
failure; and neither operation has an error-code return channel — every
outcome of either is a normal return or an abort. -/
theorem fatal_graphics_error_policy
    (file txt op v f : String) (line e : Nat)
    (mgr : AssetPlatform) (gl : GlShaderEnv)
    (hv : (mgr.textAsset v).isSome) (hf : (mgr.textAsset f).isSome)
    (hgl : gl.compiles ((mgr.textAsset v).getD "") = false
         ∨ gl.compiles ((mgr.textAsset f).getD "") = false
         ∨ gl.links = false)
    (he : e ≠ 0) :
    CHECK true file line txt = CallOutcome.ok ()
    ∧ CHECK false file line txt
        = CallOutcome.aborted (checkFailureMessage file line txt)
    ∧ CheckGlError op 0 = CallOutcome.ok ()
    ∧ CheckGlError op e = CHECK false "util.cc" 0 ("GL error after " ++ op)
    ∧ (∃ msg, CreateProgram mgr gl v f = CallOutcome.aborted msg)
    ∧ (∀ (mgr2 : AssetPlatform) (gl2 : GlShaderEnv) (v2 f2 : String),
        (∃ n, CreateProgram mgr2 gl2 v2 f2 = CallOutcome.ok n)
        ∨ ∃ msg, CreateProgram mgr2 gl2 v2 f2 = CallOutcome.aborted msg)
    ∧ (∀ (op2 : String) (e2 : Nat),
        CheckGlError op2 e2 = CallOutcome.ok ()
        ∨ ∃ msg, CheckGlError op2 e2 = CallOutcome.aborted msg) := by
  obtain ⟨vs, hvs⟩ := Option.isSome_iff_exists.mp hv
  obtain ⟨fs, hfs⟩ := Option.isSome_iff_exists.mp hf
  rw [hvs, hfs] at hgl
  simp only [Option.getD_some] at hgl
  have hbeq : (e == 0) = false := by simp [he]
  refine ⟨by simp [CHECK], by simp [CHECK], by simp [CheckGlError, CHECK],
    by simp [CheckGlError, hbeq], ?_, ?_, ?_⟩
  · cases hcv : gl.compiles vs with
    | false =>
        refine ⟨checkFailureMessage "util.cc" 0 "vertex shader compile status", ?_⟩
        simp [CreateProgram, LoadTextFileFromAssetManager, hvs, hfs,
          CHECK, CallOutcome.bind, hcv]
    | true =>
        cases hcf : gl.compiles fs with
        | false =>
            refine ⟨checkFailureMessage "util.cc" 0 "fragment shader compile status", ?_⟩
            simp [CreateProgram, LoadTextFileFromAssetManager, hvs, hfs,
              CHECK, CallOutcome.bind, hcv, hcf]
        | true =>
            have hlk : gl.links = false := by
              rcases hgl with h1 | h2 | h3
              · rw [hcv] at h1; exact absurd h1 (by simp)
              · rw [hcf] at h2; exact absurd h2 (by simp)
              · exact h3
            refine ⟨checkFailureMessage "util.cc" 0 "program link status", ?_⟩
            simp [CreateProgram, LoadTextFileFromAssetManager, hvs, hfs,
              CHECK, CallOutcome.bind, hcv, hcf, hlk]
  · intro mgr2 gl2 v2 f2
    cases hq : CreateProgram mgr2 gl2 v2 f2 with
    | ok n => exact Or.inl ⟨n, rfl⟩
    | aborted m => exact Or.inr ⟨m, rfl⟩
  · intro op2 e2
    cases hq : CheckGlError op2 e2 with
    | ok u => exact Or.inl rfl
    | aborted m => exact Or.inr ⟨m, rfl⟩

/-- Witness for `fatal_graphics_error_policy` at concrete inputs: assets
present, nothing compiles, GL error code 1 pending. -/
theorem fatal_graphics_error_policy_witness :
    CHECK true "util.h" 46 "condition" = CallOutcome.ok ()
    ∧ CHECK false "util.h" 46 "condition"
        = CallOutcome.aborted (checkFailureMessage "util.h" 46 "condition")
    ∧ CheckGlError "glDrawElements" 0 = CallOutcome.ok ()
    ∧ CheckGlError "glDrawElements" 1
        = CHECK false "util.cc" 0 ("GL error after " ++ "glDrawElements")
    ∧ (∃ msg, CreateProgram demoAssets failingGl "shader.vert" "shader.frag"
        = CallOutcome.aborted msg)
    ∧ (∀ (mgr2 : AssetPlatform) (gl2 : GlShaderEnv) (v2 f2 : String),
        (∃ n, CreateProgram mgr2 gl2 v2 f2 = CallOutcome.ok n)
        ∨ ∃ msg, CreateProgram mgr2 gl2 v2 f2 = CallOutcome.aborted msg)
    ∧ (∀ (op2 : String) (e2 : Nat),
        CheckGlError op2 e2 = CallOutcome.ok ()
        ∨ ∃ msg, CheckGlError op2 e2 = CallOutcome.aborted msg) :=
  fatal_graphics_error_policy "util.h" "condition" "glDrawElements"
    "shader.vert" "shader.frag" 46 1 demoAssets failingGl
    (by simp [demoAssets]) (by simp [demoAssets])
    (Or.inl (by simp [demoAssets, failingGl])) (by decide)

/-- C3: each asset loader returns true and produces correctly-shaped output
(full text string, texture upload to the bind target, flat
vertex/normal/UV/index arrays of three, three, two and three entries per
record) exactly when the named asset exists and parses, and returns false
when the asset is missing or malformed. -/
theorem asset_loaders_contract
    (mgr : AssetPlatform) (tc : ThreadCtx) (target : Nat)
    (name path objName prev : String) (tex : GlTexState)
    (pv pn pu : List ℚ) (pidx : List Nat)
    (ht : tc.current = tc.glOwner) :
    ((LoadTextFileFromAssetManager mgr name prev).1 = true
      ↔ (mgr.textAsset name).isSome)
    ∧ (∀ s, mgr.textAsset name = some s →
        LoadTextFileFromAssetManager mgr name prev = (true, s))
    ∧ (mgr.textAsset name = none →
        LoadTextFileFromAssetManager mgr name prev = (false, prev))
    ∧ (∀ img, mgr.pngAsset path = some img →
        LoadPngFromAssetManager tc mgr target path tex
          = some (true, { bound := (target, img) :: tex.bound }))
    ∧ (mgr.pngAsset path = none →
        LoadPngFromAssetManager tc mgr target path tex = some (false, tex))
    ∧ ((LoadObjFile mgr objName pv pn pu pidx).1 = true
      ↔ (mgr.objAsset objName).isSome)
    ∧ (∀ d, mgr.objAsset objName = some d →
        LoadObjFile mgr objName pv pn pu pidx
          = (true, d.flatVertices, d.flatNormals, d.flatUV, d.flatIndices)
        ∧ d.flatVertices.length = 3 * d.verts.length
        ∧ d.flatNormals.length = 3 * d.verts.length
        ∧ d.flatUV.length = 2 * d.verts.length
        ∧ d.flatIndices.length = 3 * d.tris.length)
    ∧ (mgr.objAsset objName = none →
        LoadObjFile mgr objName pv pn pu pidx = (false, pv, pn, pu, pidx))
    := by
  refine ⟨?_, ?_, ?_, ?_, ?_, ?_, ?_, ?_⟩
  · cases h : mgr.textAsset name <;>
      simp [LoadTextFileFromAssetManager, h]
  · intro s h; simp [LoadTextFileFromAssetManager, h]
  · intro h; simp [LoadTextFileFromAssetManager, h]
  · intro img h; simp [LoadPngFromAssetManager, ht, h]
  · intro h; simp [LoadPngFromAssetManager, ht, h]
  · cases h : mgr.objAsset objName <;> simp [LoadObjFile, h]
  · intro d h
    refine ⟨by simp [LoadObjFile, h], ?_, ?_, ?_, ?_⟩
    · exact length_flatMap_const 3 _ d.verts (fun a => rfl)
    · exact length_flatMap_const 3 _ d.verts (fun a => rfl)
    · exact length_flatMap_const 2 _ d.verts (fun a => rfl)
    · exact length_flatMap_const 3 _ d.tris (fun a => rfl)
  · intro h; simp [LoadObjFile, h]

/-- Helper: the pose's y axis is a unit vector whenever the pose's
quaternion is a unit quaternion. -/
theorem yAxis_unit (p : RawPose)
    (hu : p.qx ^ 2 + p.qy ^ 2 + p.qz ^ 2 + p.qw ^ 2 = 1) :
    Vec3.dot p.yAxis p.yAxis = 1 := by
  dsimp only [Vec3.dot, RawPose.yAxis]
  linear_combination (4 * p.qx ^ 2 + 4 * p.qz ^ 2) * hu

/-- Helper: orthogonal projection facts for a unit normal: the foot point
lies on the plane, and the displacement to it has squared length equal to
the squared signed distance. -/
theorem foot_point_props (c p n : Vec3) (hn : Vec3.dot n n = 1) :
    Vec3.dot
        (Vec3.sub (Vec3.sub c (Vec3.smul (Vec3.dot (Vec3.sub c p) n) n)) p) n
      = 0
    ∧ Vec3.dot (Vec3.smul (Vec3.dot (Vec3.sub c p) n) n)
        (Vec3.smul (Vec3.dot (Vec3.sub c p) n) n)
      = (Vec3.dot (Vec3.sub c p) n) ^ 2 := by
  dsimp only [Vec3.dot, Vec3.sub, Vec3.smul] at hn ⊢
  constructor
  · linear_combination
      (-((c.x - p.x) * n.x + (c.y - p.y) * n.y + (c.z - p.z) * n.z)) * hn
  · linear_combination
      ((c.x - p.x) * n.x + (c.y - p.y) * n.y + (c.z - p.z) * n.z) ^ 2 * hn

/-- C4: for a plane pose whose (unit-quaternion) rotation sends the y axis
to the plane's normal, `CalculateDistanceToPlane` returns the normal
distance from the camera pose to that plane as a signed quantity: its
square is the minimum squared distance from the camera position to any
point of the plane, attained at the orthogonal foot point; only the sign is
left open by the spec. -/
theorem calculateDistanceToPlane_normal_distance
    (s : ArSession) (plane camera : RawPose)
    (hu : plane.qx ^ 2 + plane.qy ^ 2 + plane.qz ^ 2 + plane.qw ^ 2 = 1) :
    Vec3.dot plane.yAxis plane.yAxis = 1
    ∧ (∀ q : Vec3, Vec3.dot (Vec3.sub q plane.position) plane.yAxis = 0 →
        (CalculateDistanceToPlane s plane camera) ^ 2
          ≤ Vec3.dot (Vec3.sub camera.position q) (Vec3.sub camera.position q))
    ∧ Vec3.dot
        (Vec3.sub
          (Vec3.sub camera.position
            (Vec3.smul (CalculateDistanceToPlane s plane camera) plane.yAxis))
          plane.position) plane.yAxis = 0
    ∧ Vec3.dot
        (Vec3.smul (CalculateDistanceToPlane s plane camera) plane.yAxis)
        (Vec3.smul (CalculateDistanceToPlane s plane camera) plane.yAxis)
      = (CalculateDistanceToPlane s plane camera) ^ 2 := by
  have hn : Vec3.dot plane.yAxis plane.yAxis = 1 := yAxis_unit plane hu
  refine ⟨hn, ?_, ?_, ?_⟩
  · intro q hq
    have hd : CalculateDistanceToPlane s plane camera
        = Vec3.dot (Vec3.sub camera.position q) plane.yAxis := by
      dsimp only [CalculateDistanceToPlane, Vec3.dot, Vec3.sub,
        RawPose.position] at hq ⊢
      linear_combination hq
    rw [hd]
    exact dot_sq_le_of_unit _ _ hn
  · exact (foot_point_props camera.position plane.position plane.yAxis hn).1
  · exact (foot_point_props camera.position plane.position plane.yAxis hn).2

/-- A concrete camera pose used by witnesses. -/
def demoCamera : RawPose :=
  { qx := 0, qy := 0, qz := 0, qw := 1, tx := 1, ty := 2, tz := 3 }

/-- Witness for `calculateDistanceToPlane_normal_distance`: identity plane
pose (a unit quaternion) and a concrete camera pose. -/
theorem calculateDistanceToPlane_normal_distance_witness :
    Vec3.dot identityRawPose.yAxis identityRawPose.yAxis = 1
    ∧ (∀ q : Vec3,
        Vec3.dot (Vec3.sub q identityRawPose.position) identityRawPose.yAxis
          = 0 →
        (CalculateDistanceToPlane { sid := 0 } identityRawPose demoCamera) ^ 2
          ≤ Vec3.dot (Vec3.sub demoCamera.position q)
              (Vec3.sub demoCamera.position q))
    ∧ Vec3.dot
        (Vec3.sub
          (Vec3.sub demoCamera.position
            (Vec3.smul
              (CalculateDistanceToPlane { sid := 0 } identityRawPose demoCamera)
              identityRawPose.yAxis))
          identityRawPose.position) identityRawPose.yAxis = 0
    ∧ Vec3.dot
        (Vec3.smul
          (CalculateDistanceToPlane { sid := 0 } identityRawPose demoCamera)
          identityRawPose.yAxis)
        (Vec3.smul
          (CalculateDistanceToPlane { sid := 0 } identityRawPose demoCamera)
          identityRawPose.yAxis)
      = (CalculateDistanceToPlane { sid := 0 } identityRawPose demoCamera) ^ 2 :=
  calculateDistanceToPlane_normal_distance { sid := 0 } identityRawPose
    demoCamera (by norm_num [identityRawPose])

/-- Witness for `asset_loaders_contract`: a platform with every asset
present and a call site on the GL-owning thread. -/
theorem asset_loaders_contract_witness :
    ((LoadTextFileFromAssetManager demoAssets "a.txt" "previous").1 = true
      ↔ (demoAssets.textAsset "a.txt").isSome)
    ∧ (∀ s, demoAssets.textAsset "a.txt" = some s →
        LoadTextFileFromAssetManager demoAssets "a.txt" "previous" = (true, s))
    ∧ (demoAssets.textAsset "a.txt" = none →
        LoadTextFileFromAssetManager demoAssets "a.txt" "previous"
          = (false, "previous"))
    ∧ (∀ img, demoAssets.pngAsset "t.png" = some img →
        LoadPngFromAssetManager { current := 5, glOwner := 5 } demoAssets
            10 "t.png" { bound := [] }
          = some (true, { bound := [(10, img)] }))
    ∧ (demoAssets.pngAsset "t.png" = none →
        LoadPngFromAssetManager { current := 5, glOwner := 5 } demoAssets
            10 "t.png" { bound := [] }
          = some (false, { bound := [] }))
    ∧ ((LoadObjFile demoAssets "m.obj" [] [] [] []).1 = true
      ↔ (demoAssets.objAsset "m.obj").isSome)
    ∧ (∀ d, demoAssets.objAsset "m.obj" = some d →
        LoadObjFile demoAssets "m.obj" [] [] [] []
          = (true, d.flatVertices, d.flatNormals, d.flatUV, d.flatIndices)
        ∧ d.flatVertices.length = 3 * d.verts.length
        ∧ d.flatNormals.length = 3 * d.verts.length
        ∧ d.flatUV.length = 2 * d.verts.length
        ∧ d.flatIndices.length = 3 * d.tris.length)
    ∧ (demoAssets.objAsset "m.obj" = none →
        LoadObjFile demoAssets "m.obj" [] [] [] [] = (false, [], [], [], [])) :=
  asset_loaders_contract demoAssets { current := 5, glOwner := 5 } 10
    "a.txt" "t.png" "m.obj" "previous" { bound := [] } [] [] [] [] rfl

/-- C5: text-file loading is all-or-nothing: every call either fails with
the caller's output string returned untouched, or succeeds delivering the
complete asset text; no partially read content is ever delivered. -/
theorem loadTextFile_no_partial_content
    (mgr : AssetPlatform) (name prev : String) :
    LoadTextFileFromAssetManager mgr name prev = (false, prev)
    ∨ ∃ s, mgr.textAsset name = some s
        ∧ LoadTextFileFromAssetManager mgr name prev = (true, s) := by
  cases h : mgr.textAsset name with
  | none => exact Or.inl (by simp [LoadTextFileFromAssetManager, h])
  | some s => exact Or.inr ⟨s, rfl, by simp [LoadTextFileFromAssetManager, h]⟩

/-- C6: every UI/backend notification helper returns no value and exposes no
error channel: the caller-visible result is always the unit value, and for
the backend update that can fail ("if possible") the caller-visible result
does not depend on whether the update was possible. -/
theorem ui_helpers_no_error_channel
    (ui : UIState) (message : String) (ok ok2 : Bool)
    (fb opt : Int) (getNew : Bool) (vis : HostResolveVisibilityEnum) :
    (ShowResolveDialog ui).2 = ()
    ∧ (DisplayMessageOnLowerSnackbar message ui).2 = ()
    ∧ (UpdateFirebaseRoomCode fb getNew opt ui).2 = ()
    ∧ (MaybeUpdateFirebase ok message ui).2 = ()
    ∧ (SetHostAndResolveButtonVisibility vis ui).2 = ()
    ∧ (MaybeUpdateFirebase ok message ui).2
      = (MaybeUpdateFirebase ok2 message ui).2 :=
  ⟨rfl, rfl, rfl, rfl, rfl, rfl⟩

/-- C7: the geometric helpers are pure and deterministic: the output matrix
and distance depend only on the session-independent pose data — two runs
with the same anchor/pose inputs agree whatever the surrounding world — and
`GetTransformMatrixFromAnchor` leaves the world untouched, writing only the
caller-supplied output matrix. -/
theorem geometric_helpers_pure
    (s s2 : ArSession) (a : ArAnchor) (plane camera : RawPose)
    (w w2 : AppWorld) :
    (GetTransformMatrixFromAnchor s a w).2
      = (GetTransformMatrixFromAnchor s2 a w2).2
    ∧ (GetTransformMatrixFromAnchor s a w).1 = w
    ∧ (GetTransformMatrixFromAnchor s a w).2 = poseMatrix a.anchorPose
    ∧ CalculateDistanceToPlane s plane camera
      = CalculateDistanceToPlane s2 plane camera :=
  ⟨rfl, rfl, rfl, rfl⟩

/-- C8: `LoadPngFromAssetManager` is defined exactly on the thread owning
the graphics context — any image decode and texture upload happens on that
thread — and it is the only operation in the module whose declaration
carries a threading constraint. -/
theorem loadPng_renderer_thread_constraint
    (tc : ThreadCtx) (mgr : AssetPlatform) (target : Nat) (path : String)
    (tex : GlTexState) :
    ((LoadPngFromAssetManager tc mgr target path tex).isSome
      ↔ tc.current = tc.glOwner)
    ∧ (∀ op : ModuleOp,
        requiresGlThread op = true ↔ op = ModuleOp.loadPngFromAssetManager)
    := by
  constructor
  · unfold LoadPngFromAssetManager
    by_cases h : tc.current = tc.glOwner
    · simp only [h, if_true]
      cases mgr.pngAsset path <;> simp [h]
    · simp [h]
  · intro op
    cases op <;> simp [requiresGlThread]

/-- C9: with `getNewRoomCode` true, `UpdateFirebaseRoomCode` ignores
`optional_new_room_code` entirely — the label comes from the Firebase
fetch — and with it false the label is set to exactly the passed value. -/
theorem updateFirebaseRoomCode_label_semantics
    (fb opt opt2 : Int) (ui : UIState) :
    UpdateFirebaseRoomCode fb true opt ui = UpdateFirebaseRoomCode fb true opt2 ui
    ∧ (UpdateFirebaseRoomCode fb true opt ui).1.roomCodeLabel = fb
    ∧ (UpdateFirebaseRoomCode fb false opt ui).1.roomCodeLabel = opt :=
  ⟨rfl, rfl, rfl⟩

end util
end cloud_anchor

